import Mathlib

/-!
Verification of the `docs/notebooks/RagAgent.ipynb` notebook of the msticpy
repository snapshot.  The notebook is a Jupyter JSON document; its cells,
their recorded execution counts, sources and recorded outputs are embedded
below verbatim as Lean data (strings keep the exact characters of the file,
with lines stored as the JSON stores them: each element of a source or text
array is one line, carrying its trailing newline except possibly the last).
-/

/-- A recorded output of a notebook code cell: either a named stream
(`stdout`/`stderr`) with its text lines, or a `display_data` output carrying
a rendered markdown body given as its lines. -/
inductive NbOutput where
  | stream (name : String) (text : List String)
  | displayData (markdown : List String)
deriving DecidableEq, Repr

/-- A notebook cell: a markdown cell with its source lines, or a code cell
with its recorded execution count, source lines and recorded outputs. -/
inductive NbCell where
  | markdownCell (source : List String)
  | codeCell (executionCount : Nat) (source : List String)
      (outputs : List NbOutput)
deriving DecidableEq, Repr

def ragAgentNotebook : List NbCell :=
  [NbCell.markdownCell
    ["# Example Notebook for RAG (Retrieval-Augmented Generation) Agent Usage"],
  NbCell.markdownCell
    ["### Query the RAG agent using the cell magic \x60%%ask\x60 command"],
  NbCell.codeCell 16
    ["# %load_ext msticpy.aiagents.mp_docs_rag_magic\n",
     "# Or use:\n",
     "%reload_ext msticpy.aiagents.mp_docs_rag_magic"]
    [],
  NbCell.codeCell 2
    ["%%ask \n",
     "What are the three things that I need to connect to Microsoft Sentinel Query Provider?"]
    [NbOutput.stream "stderr"
        ["2024-07-30 15:48:19,414 - autogen.agentchat.contrib.retrieve_user_proxy_agent - INFO - \x1b[32mUse the existing collection \x60MSTICpy_Docs_2.12.0\x60.\x1b[0m\n",
         "2024-07-30 15:48:27,518 - autogen.agentchat.contrib.retrieve_user_proxy_agent - INFO - Found 384 chunks.\x1b[0m\n"],
      NbOutput.displayData
        ["\n",
         "**Question**: What are the three things that I need to connect to Microsoft Sentinel Query Provider?"],
      NbOutput.displayData
        ["\n",
         "**Answer**: To connect to the Microsoft Sentinel Query Provider, you need the following three things:\n",
         "\n",
         "1. A \x60QueryProvider\x60 instance.\n",
         "2. The data environment string (\"MSSentinel\" for Microsoft Sentinel).\n",
         "3. A connection string or authentication parameters.\n",
         "\n",
         "Sources: C:\\Users\\t-egarcia\\Documents\\Forked MSTICpy Repo\\msticpy\\docs\\source\\data_acquisition\\DataProviders.rst"]],
  NbCell.codeCell 3
    ["%%ask\n",
     "How do I connect to the M365 Defender query provider?"]
    [NbOutput.displayData
        ["\n",
         "**Question**: How do I connect to the M365 Defender query provider?"],
      NbOutput.displayData
        ["\n",
         "**Answer**: To connect to the M365 Defender query provider, you need to follow these steps:\n",
         "\n",
         "1. Ensure your connection details are specified in the \x60msticpyconfig.yaml\x60 file.\n",
         "\n",
         "2. Create a \x60QueryProvider\x60 instance for M365 Defender.\n",
         "\n",
         "3. Call the \x60connect()\x60 method on the instance.\n",
         "\n",
         "Here\x27s an example:\n",
         "\n",
         "\x60\x60\x60python\n",
         "from msticpy.data import QueryProvider\n",
         "\n",
         "# Create a QueryProvider instance\n",
         "mdatp_prov = QueryProvider(\"M365D\")\n",
         "\n",
         "# Connect to the M365 Defender instance using the configured details\n",
         "mdatp_prov.connect()\n",
         "\x60\x60\x60\n",
         "\n",
         "If you have multiple instances configured, specify the instance name when calling \x60connect()\x60:\n",
         "\n",
         "\x60\x60\x60python\n",
         "mdatp_prov.connect(instance=\"Tenant2\")\n",
         "\x60\x60\x60\n",
         "\n",
         "If you prefer to pass connection parameters directly, use keyword arguments:\n",
         "\n",
         "\x60\x60\x60python\n",
         "# Collect credentials\n",
         "ten_id = input(\x27Tenant ID\x27)\n",
         "client_id = input(\x27Client ID\x27)\n",
         "client_secret = input(\x27Client Secret\x27)\n",
         "\n",
         "# Create a QueryProvider instance\n",
         "mdatp_prov = QueryProvider(\x27M365D\x27)\n",
         "\n",
         "# Connect using collected credentials\n",
         "mdatp_prov.connect(tenant_id=ten_id, client_id=client_id, client_secret=client_secret)\n",
         "\x60\x60\x60\n",
         "\n",
         "Alternatively, you can use a connection string:\n",
         "\n",
         "\x60\x60\x60python\n",
         "# Define a connection string\n",
         "conn_str = (\n",
         "    \"tenant_id=\x27243bb6be-4136-4b64-9055-fb661594199a\x27; \"\n",
         "    \"client_id=\x27a5b24e23-a96a-4472-b729-9e5310c83e20\x27; \"\n",
         "    \"client_secret=\x27[PLACEHOLDER]\x27\"\n",
         ")\n",
         "\n",
         "# Create a QueryProvider instance\n",
         "mdatp_prov = QueryProvider(\x27M365D\x27)\n",
         "\n",
         "# Connect using the connection string\n",
         "mdatp_prov.connect(conn_str)\n",
         "\x60\x60\x60\n",
         "\n",
         "Sources: C:\\Users\\t-egarcia\\Documents\\Forked MSTICpy Repo\\msticpy\\docs\\source\\data_acquisition\\DataProv-MSDefender.rst"]],
  NbCell.codeCell 4
    ["%%ask\n",
     "What do I need to add to my msticpyconfig.yaml config for the Azure Resource Graph query provider?"]
    [NbOutput.displayData
        ["\n",
         "**Question**: What do I need to add to my msticpyconfig.yaml config for the Azure Resource Graph query provider?"],
      NbOutput.displayData
        ["\n",
         "**Answer**: To add Azure Resource Graph to your \x60msticpyconfig.yaml\x60 configuration, include the following under the \x60Azure\x60 section:\n",
         "\n",
         "\x60\x60\x60yaml\n",
         "Azure:\n",
         "  auth_methods:\n",
         "  - cli\n",
         "  - interactive\n",
         "  cloud: global\n",
         "\x60\x60\x60\n",
         "\n",
         "For more information on configuring \x60msticpyconfig.yaml\x60, refer to the MSTICPy documentation.\n",
         "\n",
         "Sources: C:\\Users\\t-egarcia\\Documents\\Forked MSTICpy Repo\\msticpy\\docs\\source\\data_acquisition\\ResourceGraphDriver.rst"]],
  NbCell.markdownCell
    ["#### A response of \x60UPDATE_CONTEXT\x60 indicates that the agents are unable to answer the query with the information retrieved by the RAG agent."],
  NbCell.codeCell 5
    ["%%ask\n",
     "Does the Splunk query provider support device code authentication?"]
    [NbOutput.displayData
        ["\n",
         "**Question**: Does the Splunk query provider support device code authentication?"],
      NbOutput.displayData
        ["\n",
         "**Answer**: UPDATE CONTEXT"]],
  NbCell.codeCell 6
    ["%%ask \n",
     "How can I plot IP addresses in this dataframe on a map?"]
    [NbOutput.displayData
        ["\n",
         "**Question**: How can I plot IP addresses in this dataframe on a map?"],
      NbOutput.displayData
        ["\n",
         "**Answer**: To plot IP addresses in a DataFrame on a map using MSTICpy\x27s FoliumMap, you can use the \x60mp_plot.folium_map\x60 pandas accessor. Here\x27s an example:\n",
         "\n",
         "\x60\x60\x60python\n",
         "# Plotting IP addresses using the mp_plot.folium_map accessor\n",
         "geo_loc_df.mp_plot.folium_map(ip_column=\"IPAddress\")\n",
         "\x60\x60\x60\n",
         "\n",
         "This will display an interactive map with markers based on the IP addresses in the \"IPAddress\" column of your DataFrame.\n",
         "\n",
         "Sources: C:\\\\Users\\\\t-egarcia\\\\Documents\\\\Forked MSTICpy Repo\\\\msticpy\\\\docs\\\\source\\\\visualization\\\\FoliumMap.rst"]],
  NbCell.codeCell 7
    ["%%ask \n",
     "How do I create a new custom data provider with msticpy?"]
    [NbOutput.displayData
        ["\n",
         "**Question**: How do I create a new custom data provider with msticpy?"],
      NbOutput.displayData
        ["\n",
         "**Answer**: To create a new custom data provider with MSTICpy, follow these main steps:\n",
         "\n",
         "1. **Write the driver class:** Derive it from \x60DriverBase\x60 and implement the methods \x60__init__\x60, \x60connect\x60, \x60query\x60, and optionally \x60query_with_results\x60.\n",
         "2. **Customize the driver (optional):** Expose attributes via \x60QueryProvider\x60, and implement custom parameter formatting and query parameter substitution if needed.\n",
         "3. **Register the driver:** Update the \x60DataEnvironment\x60 enum and add an entry to the driver dynamic load table.\n",
         "4. **Add queries:** Create a folder named after your \x60DataEnvironment\x60 and add your query files there.\n",
         "5. **Add settings definition:** Define settings in a YAML configuration file.\n",
         "6. **Create documentation:** Document the configuration and use of the data provider.\n",
         "7. **Create unit tests:** Add unit tests using mocks to simulate service responses.\n",
         "\n",
         "For detailed guidance on these steps, refer to the provided MSTICpy documentation related to data providers.\n",
         "\n",
         "Sources: WritingDataProviders.rst, PluginFramework.rst, ExtendingMsticpy.rst"]],
  NbCell.codeCell 9
    ["%%ask \n",
     "How do I list which TI providers are currently enabled?"]
    [NbOutput.displayData
        ["\n",
         "**Question**: How do I list which TI providers are currently enabled?"],
      NbOutput.displayData
        ["\n",
         "**Answer**: ### Step 1: Intent\n",
         "The user\x27s intent is to get help with **question answering**.\n",
         "\n",
         "### Step 2: Answer\n",
         "To list which Threat Intelligence (TI) providers are currently enabled in MSTICpy, you can inspect the configuration typically found in the \x60msticpyconfig.yaml\x60 file under the \x60TIProviders\x60 section. This configuration file determines which providers are set up and whether they are marked as primary/secondary.\n",
         "\n",
         "Sources: \x60C:\\\\Users\\\\t-egarcia\\\\Documents\\\\Forked MSTICpy Repo\\\\msticpy\\\\docs\\\\source\\\\extending\\\\WritingTIAndContextProviders.rst\x60"]],
  NbCell.codeCell 10
    ["%%ask \n",
     "How do I lookup threat intelligence for multiple IP addresses at once?"]
    [NbOutput.displayData
        ["\n",
         "**Question**: How do I lookup threat intelligence for multiple IP addresses at once?"],
      NbOutput.displayData
        ["\n",
         "**Answer**: Step 1: User\x27s intent is to generate code for performing threat intelligence lookups for multiple IP addresses at once.\n",
         "\n",
         "Step 2:\n",
         "\x60\x60\x60python\n",
         "from msticpy.context.ip_utils import ip_whois\n",
         "\n",
         "# List of IP addresses to lookup\n",
         "ip_list = [\"123.1.2.3\", \"124.5.6.7\"]\n",
         "\n",
         "# Performing Whois lookup for multiple IP addresses\n",
         "whois_data = ip_whois(ip_list)\n",
         "print(whois_data)\n",
         "\x60\x60\x60\n",
         "\n",
         "Sources: C:\\Users\\t-egarcia\\Documents\\Forked MSTICpy Repo\\msticpy\\docs\\source\\data_acquisition\\IPWhois.rst"]],
  NbCell.codeCell 11
    ["%%ask \n",
     "How do I use pivot functions?"]
    [NbOutput.displayData
        ["\n",
         "**Question**: How do I use pivot functions?"],
      NbOutput.displayData
        ["\n",
         "**Answer**: To use pivot functions in MSTICpy, you have two primary options: creating persistent pivot function definitions in YAML files or adding ad hoc pivot functions directly in code. Here\x27s a brief overview of both methods:\n",
         "\n",
         "**1. Persistent Pivot Function Definitions**\n",
         "\n",
         "- Define your pivot function properties in a YAML file with a top-level element \x60pivot_providers\x60.\n",
         "- Example YAML definition:\n",
         "\n",
         "\x60\x60\x60yaml\n",
         "pivot_providers:\n",
         "  who_is:\n",
         "    src_module: msticpy.context.ip_utils\n",
         "    src_func_name: get_whois_df\n",
         "    func_new_name: whois\n",
         "    input_type: dataframe\n",
         "    entity_map:\n",
         "      IpAddress: Address\n",
         "    func_df_param_name: data\n",
         "    func_df_col_param_name: ip_column\n",
         "    func_out_column_name: query\n",
         "    func_static_params:\n",
         "      all_columns: True\n",
         "      show_progress: False\n",
         "    func_input_value_arg: ip_address\n",
         "\x60\x60\x60\n",
         "\n",
         "- Load and register the definition using:\n",
         "\n",
         "\x60\x60\x60python\n",
         "from msticpy.init.pivot_core.pivot import Pivot\n",
         "Pivot.register_pivot_providers(pivot_reg_path=path_to_your_yaml, namespace=globals(), def_container=\"my_container\", force_container=True)\n",
         "\x60\x60\x60\n",
         "\n",
         "**2. Ad Hoc Pivot Functions in Code**\n",
         "\n",
         "- Add a function as a pivot using the \x60add_pivot_function\x60 method:\n",
         "\n",
         "\x60\x60\x60python\n",
         "def my_func(input: str):\n",
         "    return input.upper()\n",
         "\n",
         "Pivot.add_pivot_function(\n",
         "    func=my_func,\n",
         "    container=\"change_case\",\n",
         "    input_type=\"value\",\n",
         "    entity_map=\x7b\"Host\": \"HostName\"\x7d,\n",
         "    func_input_value_arg=\"input\",\n",
         "    func_new_name=\"upper_name\",\n",
         ")\n",
         "\x60\x60\x60\n",
         "\n",
         "- Alternatively, use the \x60PivotRegistration\x60 class:\n",
         "\n",
         "\x60\x60\x60python\n",
         "from msticpy.init.pivot_core.pivot_register import PivotRegistration\n",
         "\n",
         "def my_func(input: str):\n",
         "    return input.upper()\n",
         "\n",
         "piv_reg = PivotRegistration(\n",
         "    input_type=\"value\",\n",
         "    entity_map=\x7b\"Host\": \"HostName\"\x7d,\n",
         "    func_input_value_arg=\"input\",\n",
         "    func_new_name=\"upper_name\"\n",
         ")\n",
         "Pivot.add_pivot_function(my_func, piv_reg, container=\"change_case\")\n",
         "\x60\x60\x60\n",
         "\n",
         "**Running Pivots in DataFrame Pipelines:**\n",
         "\n",
         "\x60\x60\x60python\n",
         "(\n",
         "    my_df\n",
         "    .query(\"UserCount > 1\")\n",
         "    .mp_pivot.run(IpAddress.util.whois, column=\"Ioc\")\n",
         "    .drop_duplicates()\n",
         ")\n",
         "\x60\x60\x60\n",
         "\n",
         "- Use \x60mp_pivot.run\x60 to integrate pivot functions into DataFrame processing pipelines.\n",
         "- Join input and output DataFrames with the \x60join\x60 parameter in \x60mp_pivot.run\x60.\n",
         "\n",
         "**Debugging Tools:**\n",
         "\n",
         "- \x60mp_pivot.display\x60 for intermediate results.\n",
         "- \x60mp_pivot.tee\x60 for creating snapshots.\n",
         "- \x60mp_pivot.tee_exec\x60 for executing intermediate operations (e.g., plotting).\n",
         "\n",
         "Sources: C:\\\\Users\\\\t-egarcia\\\\Documents\\\\Forked MSTICpy Repo\\\\msticpy\\\\docs\\\\source\\\\extending\\\\PivotFunctions.rst, C:\\\\Users\\\\t-egarcia\\\\Documents\\\\Forked MSTICpy Repo\\\\msticpy\\\\docs\\\\source\\\\data_analysis\\\\PivotFunctions.rst, C:\\\\Users\\\\t-egarcia\\\\Documents\\\\Forked MSTICpy Repo\\\\msticpy\\\\docs\\\\source\\\\api\\\\msticpy.init.pivot.rst"]],
  NbCell.codeCell 12
    ["%%ask \n",
     "Which columns do I need in a dataframe to plot process trees?"]
    [NbOutput.displayData
        ["\n",
         "**Question**: Which columns do I need in a dataframe to plot process trees?"],
      NbOutput.displayData
        ["\n",
         "**Answer**: To plot process trees, the required columns in a DataFrame are typically:\n",
         "\n",
         "1. \x60ParentProcessName\x60\n",
         "2. \x60Process\x60\n",
         "\n",
         "Additional attributes such as \x60SubjectUserName\x60, \x60SubjectDomainName\x60, \x60SubjectLogonId\x60, \x60NewProcessName\x60, \x60CommandLine\x60, and \x60TimeGenerated\x60 can be used for more detailed visualization and analysis.\n",
         "\n",
         "Sources: C:\\Users\\t-egarcia\\Documents\\Forked MSTICpy Repo\\msticpy\\docs\\source\\visualization\\NetworkGraph.rst"]],
  NbCell.codeCell 13
    ["%%ask \n",
     "What kind of visualizations does msticpy support?"]
    [NbOutput.displayData
        ["\n",
         "**Question**: What kind of visualizations does msticpy support?"],
      NbOutput.displayData
        ["\n",
         "**Answer**: MSTICPy supports various visualizations including interactive timelines, process trees, multi-dimensional Morph Charts, data viewers, matrix plots, network plots, and several others listed under the \x60msticpy.vis\x60 package.\n",
         "\n",
         "Sources: C:\\Users\\t-egarcia\\Documents\\Forked MSTICpy Repo\\msticpy\\docs\\source\\index.rst, C:\\Users\\t-egarcia\\Documents\\Forked MSTICpy Repo\\msticpy\\docs\\source\\visualization\\MorphCharts.rst"]],
  NbCell.codeCell 14
    ["%%ask \n",
     "How do I add a new query for Microsoft 365 Defender to msticpy?"]
    [NbOutput.displayData
        ["\n",
         "**Question**: How do I add a new query for Microsoft 365 Defender to msticpy?"],
      NbOutput.displayData
        ["\n",
         "**Answer**: To add a new query for Microsoft 365 Defender (M365D) to MSTICPy, you should use the \x60QueryProvider\x60 class. Here\x27s a step-by-step guide on how to achieve it:\n",
         "\n",
         "1. **Initialize the \x60QueryProvider\x60 for M365D**:\n",
         "   \x60\x60\x60python\n",
         "   from msticpy.data import QueryProvider\n",
         "\n",
         "   mdatp_prov = QueryProvider(\"M365D\")\n",
         "   \x60\x60\x60\n",
         "\n",
         "2. **Connect to the M365 Defender API**:\n",
         "   \x60\x60\x60python\n",
         "   mdatp_prov.connect()\n",
         "   \x60\x60\x60\n",
         "\n",
         "3. **Add your new query**:\n",
         "   You can add new queries to the query store of \x60QueryProvider\x60. Here\u2019s an example of how to define and add a new query:\n",
         "   \x60\x60\x60python\n",
         "   new_query = \"\"\"\n",
         "   DeviceEvents\n",
         "   | where ActionType == \"FileCreated\"\n",
         "   | limit 10\n",
         "   \"\"\"\n",
         "   mdatp_prov.add_query(\"GetRecentFileCreatedEvents\", new_query)\n",
         "   \x60\x60\x60\n",
         "\n",
         "4. **Run the newly added query**:\n",
         "   \x60\x60\x60python\n",
         "   results = mdatp_prov.exec_query(\"GetRecentFileCreatedEvents\")\n",
         "   print(results)\n",
         "   \x60\x60\x60\n",
         "\n",
         "In summary, you need to instantiate a \x60QueryProvider\x60 object for M365D, connect to the API, add the new query, and then execute the query.\n",
         "\n",
         "Sources: C:\\Users\\t-egarcia\\Documents\\Forked MSTICpy Repo\\msticpy\\docs\\source\\data_acquisition\\DataProv-MSDefender.rst"]],
  NbCell.codeCell 15
    ["%%ask\n",
     "Which msticpy module contains the code related to visualizing network graphs?"]
    [NbOutput.displayData
        ["\n",
         "**Question**: Which msticpy module contains the code related to visualizing network graphs?"],
      NbOutput.displayData
        ["\n",
         "**Answer**: The MSTICpy module that contains the code related to visualizing network graphs is \x60msticpy.vis.network_plot\x60.\n",
         "\n",
         "Sources: C:\\\\Users\\\\t-egarcia\\\\Documents\\\\Forked MSTICpy Repo\\\\msticpy\\\\docs\\\\source\\\\api\\\\msticpy.vis.network_plot.rst"]]]

/-! ## Accessors and notions used by the claims -/

/-- The text of a list of recorded lines, concatenated (how the notebook
front end reassembles a JSON string array). -/
def joinLines (ls : List String) : List Char :=
  (ls.map String.data).flatten

/-- Prefix test on character lists. -/
def beginsWith (p s : List Char) : Bool :=
  List.isPrefixOf p s

/-- Suffix test on character lists. -/
def finishesWith (p s : List Char) : Bool :=
  beginsWith p.reverse s.reverse

/-- Substring occurrence test on character lists. -/
def hasSub (needle : List Char) : List Char → Bool
  | [] => needle.isEmpty
  | c :: cs => beginsWith needle (c :: cs) || hasSub needle cs

/-- The rendered text of a markdown block: its joined lines with leading
newline characters dropped (a markdown renderer shows nothing for them;
every recorded block of this notebook opens with one `"\n"` line). -/
def renderedText (ls : List String) : List Char :=
  (joinLines ls).dropWhile (fun c => c == '\n')

def NbCell.isCode : NbCell → Bool
  | .codeCell _ _ _ => true
  | .markdownCell _ => false

def NbCell.sourceLines : NbCell → List String
  | .codeCell _ s _ => s
  | .markdownCell s => s

def NbCell.cellOutputs : NbCell → List NbOutput
  | .codeCell _ _ o => o
  | .markdownCell _ => []

def NbCell.execCount : NbCell → Nat
  | .codeCell n _ _ => n
  | .markdownCell _ => 0

/-- A code cell invoking the `%%ask` cell magic: its first source line
starts with `%%ask`. -/
def NbCell.isAsk (c : NbCell) : Bool :=
  c.isCode && beginsWith "%%ask".data (joinLines c.sourceLines)

/-- The code cells of the notebook, in document order. -/
def codeCells : List NbCell :=
  ragAgentNotebook.filter NbCell.isCode

/-- The `%%ask` cells of the notebook, in document order. -/
def askCells : List NbCell :=
  ragAgentNotebook.filter NbCell.isAsk

/-- The body of an `%%ask` cell: the source text after the magic line,
i.e. the free-text question the user typed. -/
def questionTextOf (c : NbCell) : List Char :=
  joinLines (c.sourceLines.drop 1)

def NbOutput.isDisplayData : NbOutput → Bool
  | .displayData _ => true
  | .stream _ _ => false

def NbOutput.isStream : NbOutput → Bool
  | .stream _ _ => true
  | .displayData _ => false

/-- The markdown bodies of the `display_data` outputs of a cell, in order. -/
def displayBlocksOf (c : NbCell) : List (List String) :=
  c.cellOutputs.filterMap fun o =>
    match o with
    | .displayData md => some md
    | .stream _ _ => none

/-- The text lines of the stream outputs of a cell. -/
def streamLinesOf (c : NbCell) : List String :=
  (c.cellOutputs.filterMap fun o =>
    match o with
    | .stream _ t => some t
    | .displayData _ => none).flatten

/-- The rendered text of a cell's second display block (the answer block). -/
def answerBlockText (c : NbCell) : List Char :=
  renderedText ((displayBlocksOf c).getD 1 [])

/-- The answer string proper: the rendered answer block with its
`**Answer**: ` tag removed when present. -/
def answerBody (c : NbCell) : List Char :=
  let t := answerBlockText c
  let tag := "**Answer**: ".data
  if beginsWith tag t then t.drop tag.length else t

/-- The lines of a markdown block, trailing newline characters stripped
(the JSON stores one line per array element). -/
def blockLines (ls : List String) : List (List Char) :=
  ls.map fun s => s.data.reverse.dropWhile (fun c => c == '\n') |>.reverse

/-- All markdown lines rendered by a cell's display outputs. -/
def allDisplayLines (c : NbCell) : List (List Char) :=
  (displayBlocksOf c).map blockLines |>.flatten

/-- Split a character list at every `", "` separator (how the notebook's
`Sources:` citation lines list several paths). -/
def splitCommaSpace : List Char → List (List Char)
  | [] => [[]]
  | ',' :: ' ' :: rest => [] :: splitCommaSpace rest
  | c :: rest =>
    match splitCommaSpace rest with
    | [] => [[c]]
    | g :: gs => (c :: g) :: gs

/-- Strip markdown code formatting (backtick characters) surrounding an
entry of a `Sources:` line. -/
def stripBackticks (cs : List Char) : List Char :=
  ((cs.dropWhile (fun c => c == '\x60')).reverse.dropWhile
    (fun c => c == '\x60')).reverse

/-- The entries cited on a `Sources:` line (the text after the tag, split
at `", "`). -/
def sourcesEntries (line : List Char) : List (List Char) :=
  splitCommaSpace (line.drop "Sources: ".data.length)

/-- The files of this repository snapshot (relative paths): it consists of
the single notebook. -/
def repositoryFiles : List String :=
  ["docs/notebooks/RagAgent.ipynb"]

/-! ## Further accessors -/

/-- Default cell for list indexing (never the result of an in-range index). -/
def noCell : NbCell := NbCell.markdownCell []

/-- The full recorded text of an output (stream text or markdown body). -/
def NbOutput.textChars : NbOutput → List Char
  | .stream _ t => joinLines t
  | .displayData md => joinLines md

/-- A list of execution counts is strictly increasing. -/
def strictlyIncreasing : List Nat → Bool
  | [] => true
  | [_] => true
  | a :: b :: rest => Nat.blt a b && strictlyIncreasing (b :: rest)

/-! ## Claims -/

set_option maxRecDepth 100000

/-- C1, counterexample: the claim says the recorded answer of the one
insufficient-context invocation (the Splunk device-code question, the
fourth `%%ask` cell) is the literal `UPDATE_CONTEXT`; in fact no recorded
answer equals `UPDATE_CONTEXT` — the Splunk cell's answer is the
space-separated `UPDATE CONTEXT`. -/
theorem c1_counterexample :
    questionTextOf (askCells.getD 3 noCell) =
      "Does the Splunk query provider support device code authentication?".data ∧
    answerBody (askCells.getD 3 noCell) = "UPDATE CONTEXT".data ∧
    (askCells.countP fun c => answerBody c == "UPDATE_CONTEXT".data) = 0 := by
  decide

/-- C1, amended: exactly one recorded `%%ask` invocation carries the
insufficiency sentinel, namely the Splunk device-code-authentication
question, and its rendered answer is the literal `UPDATE CONTEXT`
(a space, not an underscore, between the two words). -/
theorem c1_update_context_answer :
    (askCells.countP fun c => answerBody c == "UPDATE CONTEXT".data) = 1 ∧
    answerBody (askCells.getD 3 noCell) = "UPDATE CONTEXT".data ∧
    questionTextOf (askCells.getD 3 noCell) =
      "Does the Splunk query provider support device code authentication?".data := by
  decide

/-- C2: the notebook has exactly 13 `%%ask` cells and each of them records
exactly two `display_data` markdown blocks; the first block's rendered text
(each block opens with a bare newline line, which renders to nothing)
begins with `**Question**:` and the second's with `**Answer**:`, in that
order. -/
theorem c2_question_answer_blocks :
    askCells.length = 13 ∧
    (askCells.all fun c =>
      ((displayBlocksOf c).length == 2) &&
      beginsWith "**Question**:".data
        (renderedText ((displayBlocksOf c).getD 0 [])) &&
      beginsWith "**Answer**:".data
        (renderedText ((displayBlocksOf c).getD 1 []))) = true := by
  decide

/-- C3: the line `Found 384 chunks.` occurs in the stream output of the
first `%%ask` cell; exactly one cell of the whole notebook has any output
containing it, and no rendered markdown line of any cell mentions a chunk
count (no display block contains the string `chunk` at all). -/
theorem c3_chunk_count_reported_once :
    hasSub "Found 384 chunks.".data
      (joinLines (streamLinesOf (askCells.getD 0 noCell))) = true ∧
    (ragAgentNotebook.countP fun c =>
      c.cellOutputs.any fun o =>
        hasSub "Found 384 chunks.".data o.textChars) = 1 ∧
    (ragAgentNotebook.all fun c =>
      (allDisplayLines c).all fun l => !hasSub "chunk".data l) = true := by
  decide

/-- C4, counterexample: the recorded execution counts of the code cells in
document order are `[16, 2, 3, 4, 5, 6, 7, 9, 10, 11, 12, 13, 14, 15]`:
the first pair already violates "strictly increasing" (16 is not below 2),
and the step from 7 to 9 violates "no gaps". -/
theorem c4_counterexample :
    codeCells.map NbCell.execCount =
      [16, 2, 3, 4, 5, 6, 7, 9, 10, 11, 12, 13, 14, 15] ∧
    ¬(16 < 2) ∧ 7 + 1 ≠ 9 := by
  decide

/-- C4, amended: the `%%ask` cells' execution counts are strictly
increasing in document order but skip count 8 (a single gap between 7 and
9), while the extension-load cell, though first in document order, records
execution count 16, greater than every `%%ask` cell's count — so the cells
were not executed in straight document order. -/
theorem c4_execution_order :
    askCells.map NbCell.execCount =
      [2, 3, 4, 5, 6, 7, 9, 10, 11, 12, 13, 14, 15] ∧
    strictlyIncreasing (askCells.map NbCell.execCount) = true ∧
    (codeCells.getD 0 noCell).execCount = 16 ∧
    ((askCells.map NbCell.execCount).all fun n => n < 16) = true := by
  decide

/-- C5: citation is optional. The first `%%ask` cell's answer block ends
with a line beginning `Sources: `, while the sentinel-answered Splunk cell
(fourth `%%ask` cell) records the answer `UPDATE CONTEXT` and none of its
answer lines contains `Sources:`. -/
theorem c5_citation_optional :
    beginsWith "Sources: ".data
      ((blockLines ((displayBlocksOf (askCells.getD 0 noCell)).getD 1
        [])).getLastD []) = true ∧
    answerBody (askCells.getD 3 noCell) = "UPDATE CONTEXT".data ∧
    ((blockLines ((displayBlocksOf (askCells.getD 3 noCell)).getD 1
      [])).all fun l => !hasSub "Sources:".data l) = true := by
  decide

/-- C6: exactly one code cell carries a `%reload_ext` directive; it is the
first code cell, its source is the three recorded lines (a commented-out
`%load_ext` alternative, a comment, and the directive), its only
non-comment line is `%reload_ext msticpy.aiagents.mp_docs_rag_magic`, and
no file of this repository snapshot lies under the `msticpy/` package
tree, so the named module path is external to the repository. -/
theorem c6_extension_load :
    (codeCells.countP fun c =>
      c.sourceLines.any fun l =>
        beginsWith "%reload_ext ".data l.data) = 1 ∧
    (codeCells.getD 0 noCell).sourceLines =
      ["# %load_ext msticpy.aiagents.mp_docs_rag_magic\n",
       "# Or use:\n",
       "%reload_ext msticpy.aiagents.mp_docs_rag_magic"] ∧
    ((codeCells.getD 0 noCell).sourceLines.filter fun l =>
      !(l.data.headD ' ' == '#')) =
      ["%reload_ext msticpy.aiagents.mp_docs_rag_magic"] ∧
    (repositoryFiles.all fun f =>
      !beginsWith "msticpy/".data f.data) = true := by
  decide

/-- C7: no code cell implements computation. Every code cell is either the
extension-load cell or an `%%ask` cell, and every `%%ask` cell's body is a
single free-text line ending in a question mark and containing none of the
tokens that Python definitions, imports, assignments, calls or statements
would need. -/
theorem c7_no_computation :
    codeCells.length = 14 ∧ askCells.length = 13 ∧
    (codeCells.all fun c =>
      (c == codeCells.getD 0 noCell) || c.isAsk) = true ∧
    (askCells.all fun c =>
      ((c.sourceLines.drop 1).length == 1) &&
      finishesWith "?".data (questionTextOf c) &&
      (["def", "class", "import", "=", "(", ")", "%", ";"].all fun t =>
        !hasSub t.data (questionTextOf c))) = true := by
  decide

/-- C8: for every `%%ask` cell, the rendered first display block is
exactly `**Question**: ` followed, character for character, by the cell's
own source text after the magic line. -/
theorem c8_question_echo :
    (askCells.all fun c =>
      renderedText ((displayBlocksOf c).getD 0 []) ==
        ("**Question**: ".data ++ questionTextOf c)) = true := by
  decide

/-- C9: on every answer line beginning `Sources: `, every comma-separated
entry — once the markdown backtick formatting around it is stripped — ends
in `.rst`; 12 of the 13 `%%ask` cells carry such a line, and every line
mentioning `Sources` anywhere is such a citation line. -/
theorem c9_sources_are_rst :
    (askCells.all fun c =>
      (allDisplayLines c).all fun l =>
        !beginsWith "Sources: ".data l ||
          (sourcesEntries l).all fun e =>
            finishesWith ".rst".data (stripBackticks e)) = true ∧
    (askCells.countP fun c =>
      (allDisplayLines c).any fun l =>
        beginsWith "Sources: ".data l) = 12 ∧
    (askCells.all fun c =>
      (allDisplayLines c).all fun l =>
        !hasSub "Sources".data l || beginsWith "Sources: ".data l) = true := by
  decide

/-- C10: only `%%ask` cells render output. The extension-load cell records
an empty outputs list; all 13 `%%ask` cells record non-empty outputs; the
first `%%ask` cell records exactly one stream output (the logging stream,
on stderr) and every later `%%ask` cell records display-data markdown
outputs only. -/
theorem c10_output_frame :
    (codeCells.getD 0 noCell).cellOutputs = [] ∧
    askCells.length = 13 ∧
    (askCells.all fun c => !c.cellOutputs.isEmpty) = true ∧
    ((askCells.getD 0 noCell).cellOutputs.countP NbOutput.isStream) = 1 ∧
    ((askCells.getD 0 noCell).cellOutputs.getD 0
      (NbOutput.displayData [])).isStream = true ∧
    ((askCells.drop 1).all fun c =>
      c.cellOutputs.all NbOutput.isDisplayData) = true := by
  decide
